import Mathlib

/-!
Shallow embedding of the three `StateManager` implementations of the
small-python-minigames repository:

* `src/flappy_birds/core/state_manager.py`  (namespace `FlappyBirds`)
* `src/text_adventure/core/state_manager.py` (namespace `TextAdventure`)
* `src/zelda_2d/core/state_manager.py`       (namespace `Zelda2d`)

A registered Python callback is modelled as a `Callback`: an identity plus a
flag saying whether invoking it raises an exception.  Executing callbacks
produces a trace of `Event`s: `ran cb` (the callback was invoked and returned
normally), `errorCaught cb` (the callback raised and the exception was caught
by the surrounding try/except), and `setState s` (the moment the
`current_state` variable is assigned).  The flappy-birds implementation has no
try/except around its callback loops, so a raising callback propagates out of
`change_state`; its call result is therefore a `CallResult` that is either a
returned boolean or a propagated exception.  `time.time()` is an external
input and is passed to the text-adventure and zelda operations as an explicit
`now : Nat` argument.
-/

/-- A registered zero-argument callback: `id` identifies the Python callable,
`fails` says whether invoking it raises an exception. -/
structure Callback where
  id : Nat
  fails : Bool
deriving DecidableEq

/-- Observable events produced while a state-manager operation executes. -/
inductive Event (σ : Type) where
  | ran (cb : Callback)
  | errorCaught (cb : Callback)
  | setState (s : σ)
deriving DecidableEq

/-- Result of a Python call: a normal return value, or an exception that
propagated out of the call (carrying the callback that raised it). -/
inductive CallResult where
  | ret (b : Bool)
  | raised (cb : Callback)
deriving DecidableEq

/-- One callback invocation inside a try/except loop: the exception of a
failing callback is caught (and logged), execution continues. -/
def evCaught {σ : Type} (cb : Callback) : Event σ :=
  if cb.fails then Event.errorCaught cb else Event.ran cb

/-- Run a whole callback list inside per-callback try/except, as
`_execute_callbacks` does in the text adventure and the inline
`try/except` loop does in zelda_2d. -/
def execCaught {σ : Type} (cbs : List Callback) : List (Event σ) :=
  cbs.map evCaught

/-- Run a callback list with no exception handling, as the flappy-birds
`change_state` does: the first failing callback raises, later callbacks do
not run.  Returns the events produced plus the propagated exception. -/
def execUncaught {σ : Type} : List Callback → List (Event σ) × Option Callback
  | [] => ([], none)
  | cb :: rest =>
    if cb.fails then ([], some cb)
    else
      let r := execUncaught (σ := σ) rest
      (Event.ran cb :: r.1, r.2)

namespace FlappyBirds

/-- The `GameState` enumeration of `flappy_birds/core/state_manager.py`. -/
inductive GameState where
  | MENU
  | PLAYING
  | PAUSED
  | GAME_OVER
  | SETTINGS
deriving DecidableEq

/-- The `valid_transitions` dictionary built in `StateManager.__init__`. -/
def defaultTransitions : GameState → List GameState
  | .MENU => [.PLAYING, .SETTINGS]
  | .PLAYING => [.PAUSED, .GAME_OVER, .MENU]
  | .PAUSED => [.PLAYING, .MENU]
  | .GAME_OVER => [.MENU, .PLAYING]
  | .SETTINGS => [.MENU]

/-- The mutable fields of a flappy-birds `StateManager` instance. -/
structure StateManager where
  current_state : GameState
  previous_state : Option GameState
  state_history : List GameState
  enter_callbacks : GameState → List Callback
  exit_callbacks : GameState → List Callback
  valid_transitions : GameState → List GameState

/-- Model of `StateManager.__init__(initial_state)`. -/
def init (initial_state : GameState) : StateManager where
  current_state := initial_state
  previous_state := none
  state_history := [initial_state]
  enter_callbacks := fun _ => []
  exit_callbacks := fun _ => []
  valid_transitions := defaultTransitions

/-- Model of `StateManager.is_valid_transition`. -/
def is_valid_transition (m : StateManager) (new_state : GameState) : Bool :=
  decide (new_state ∈ m.valid_transitions m.current_state)

/-- The mutation block in the middle of `change_state`: set `previous_state`,
set `current_state`, append to `state_history` and pop the oldest entry when
the history exceeds 10 entries. -/
def applyTransition (m : StateManager) (new_state : GameState) : StateManager :=
  { m with
    previous_state := some m.current_state
    current_state := new_state
    state_history :=
      let h := m.state_history ++ [new_state]
      if h.length > 10 then h.tail else h }

/-- Model of `StateManager.change_state`.  Exit callbacks run uncaught, then the
mutation block, then enter callbacks run uncaught; a raising callback
propagates out of the call. -/
def change_state (m : StateManager) (new_state : GameState) :
    StateManager × List (Event GameState) × CallResult :=
  if is_valid_transition m new_state then
    match execUncaught (σ := GameState) (m.exit_callbacks m.current_state) with
    | (exitEvs, some cb) => (m, exitEvs, CallResult.raised cb)
    | (exitEvs, none) =>
      let m1 := applyTransition m new_state
      match execUncaught (σ := GameState) (m1.enter_callbacks new_state) with
      | (enterEvs, some cb) =>
        (m1, exitEvs ++ Event.setState new_state :: enterEvs, CallResult.raised cb)
      | (enterEvs, none) =>
        (m1, exitEvs ++ Event.setState new_state :: enterEvs, CallResult.ret true)
  else
    (m, [], CallResult.ret false)

/-- Model of `StateManager.add_enter_callback`. -/
def add_enter_callback (m : StateManager) (state : GameState) (cb : Callback) :
    StateManager :=
  { m with enter_callbacks := fun s =>
      if s = state then m.enter_callbacks s ++ [cb] else m.enter_callbacks s }

/-- Model of `StateManager.add_exit_callback`. -/
def add_exit_callback (m : StateManager) (state : GameState) (cb : Callback) :
    StateManager :=
  { m with exit_callbacks := fun s =>
      if s = state then m.exit_callbacks s ++ [cb] else m.exit_callbacks s }

/-- Model of `StateManager.reset`: set the three data fields back to their initial
values; no callbacks run. -/
def reset (m : StateManager) : StateManager :=
  { m with
    current_state := GameState.MENU
    previous_state := none
    state_history := [GameState.MENU] }

/-- Run a sequence of `change_state` calls, collecting the call results. -/
def changeSeq (m : StateManager) : List GameState → StateManager × List CallResult
  | [] => (m, [])
  | t :: rest =>
    let r := change_state m t
    let s := changeSeq r.1 rest
    (s.1, r.2.2 :: s.2)

end FlappyBirds

namespace TextAdventure

/-- The `GameState` enumeration of `text_adventure/core/state_manager.py`. -/
inductive GameState where
  | MENU
  | PLAYING
  | INVENTORY
  | PAUSED
  | SAVING
  | LOADING
  | QUIT
deriving DecidableEq

/-- The `valid_transitions` dictionary built in `StateManager.__init__`. -/
def defaultTransitions : GameState → List GameState
  | .MENU => [.PLAYING, .LOADING, .QUIT]
  | .PLAYING => [.INVENTORY, .PAUSED, .SAVING, .MENU, .QUIT]
  | .INVENTORY => [.PLAYING]
  | .PAUSED => [.PLAYING, .MENU, .QUIT]
  | .SAVING => [.PLAYING]
  | .LOADING => [.PLAYING, .MENU]
  | .QUIT => []

/-- One record of `state_history`, as built by `_record_state_change`. -/
structure HistoryRecord where
  timestamp : Nat
  from_state : Option GameState
  to_state : GameState
  transition_valid : Bool
deriving DecidableEq

/-- The mutable fields of a text-adventure `StateManager` instance. -/
structure StateManager where
  current_state : GameState
  previous_state : Option GameState
  state_history : List HistoryRecord
  enter_callbacks : GameState → List Callback
  exit_callbacks : GameState → List Callback
  valid_transitions : GameState → List GameState

/-- Model of `StateManager.can_transition_to`. -/
def can_transition_to (m : StateManager) (target_state : GameState) : Bool :=
  decide (target_state ∈ m.valid_transitions m.current_state)

/-- Model of `StateManager._record_state_change`.  Note that `transition_valid` calls
`can_transition_to` on the manager as it is at the moment of recording, which
inside `change_state` is after `current_state` has already been set to the
target.  When the history exceeds 100 records it is cut to the last 50
(the Python slice `state_history[-50:]`). -/
def record_state_change (m : StateManager) (old_state : Option GameState)
    (new_state : GameState) (now : Nat) : StateManager :=
  let record : HistoryRecord :=
    { timestamp := now
      from_state := old_state
      to_state := new_state
      transition_valid := old_state.isNone || can_transition_to m new_state }
  let h := m.state_history ++ [record]
  { m with state_history := if h.length > 100 then h.drop (h.length - 50) else h }

/-- Model of `StateManager.__init__(initial_state)`: fields set, then
`_record_state_change(None, initial_state)`. -/
def init (initial_state : GameState) (now : Nat) : StateManager :=
  record_state_change
    { current_state := initial_state
      previous_state := none
      state_history := []
      enter_callbacks := fun _ => []
      exit_callbacks := fun _ => []
      valid_transitions := defaultTransitions }
    none initial_state now

/-- Model of `StateManager.change_state`.  Callbacks are executed through
`_execute_callbacks`, which catches and logs each callback exception. -/
def change_state (m : StateManager) (new_state : GameState) (now : Nat) :
    StateManager × List (Event GameState) × Bool :=
  if can_transition_to m new_state then
    let old_state := m.current_state
    let exitEvs := execCaught (σ := GameState) (m.exit_callbacks old_state)
    let m1 := { m with previous_state := some old_state, current_state := new_state }
    let m2 := record_state_change m1 (some old_state) new_state now
    let enterEvs := execCaught (σ := GameState) (m2.enter_callbacks new_state)
    (m2, exitEvs ++ Event.setState new_state :: enterEvs, true)
  else
    (m, [], false)

/-- Model of `StateManager.add_enter_callback`. -/
def add_enter_callback (m : StateManager) (state : GameState) (cb : Callback) :
    StateManager :=
  { m with enter_callbacks := fun s =>
      if s = state then m.enter_callbacks s ++ [cb] else m.enter_callbacks s }

/-- Model of `StateManager.add_exit_callback`. -/
def add_exit_callback (m : StateManager) (state : GameState) (cb : Callback) :
    StateManager :=
  { m with exit_callbacks := fun s =>
      if s = state then m.exit_callbacks s ++ [cb] else m.exit_callbacks s }

/-- Model of `StateManager.reset_to_menu`: forces the transition to MENU with no
validity check; exit callbacks of the old state run unless the old state is
already MENU; always returns `True`. -/
def reset_to_menu (m : StateManager) (now : Nat) :
    StateManager × List (Event GameState) × Bool :=
  let old_state := m.current_state
  let exitEvs :=
    if old_state = GameState.MENU then ([] : List (Event GameState))
    else execCaught (σ := GameState) (m.exit_callbacks old_state)
  let m1 := { m with previous_state := some old_state, current_state := GameState.MENU }
  let m2 := record_state_change m1 (some old_state) GameState.MENU now
  let enterEvs := execCaught (σ := GameState) (m2.enter_callbacks GameState.MENU)
  (m2, exitEvs ++ Event.setState GameState.MENU :: enterEvs, true)

/-- Run a sequence of `change_state` calls (target paired with the clock
value read during the call), collecting the returned booleans. -/
def changeSeq (m : StateManager) :
    List (GameState × Nat) → StateManager × List Bool
  | [] => (m, [])
  | c :: rest =>
    let r := change_state m c.1 c.2
    let s := changeSeq r.1 rest
    (s.1, r.2.2 :: s.2)

end TextAdventure

namespace Zelda2d

/-- The `GameState` enumeration of `zelda_2d/core/state_manager.py`. -/
inductive GameState where
  | MENU
  | PLAYING
  | PAUSED
  | INVENTORY
  | GAME_OVER
  | QUIT
deriving DecidableEq

/-- The `valid_transitions` dictionary built in `StateManager.__init__`. -/
def defaultTransitions : GameState → List GameState
  | .MENU => [.PLAYING, .QUIT]
  | .PLAYING => [.PAUSED, .INVENTORY, .GAME_OVER, .MENU, .QUIT]
  | .PAUSED => [.PLAYING, .MENU, .QUIT]
  | .INVENTORY => [.PLAYING]
  | .GAME_OVER => [.MENU, .PLAYING]
  | .QUIT => []

/-- One record of `state_history` (zelda has no validity flag). -/
structure HistoryRecord where
  timestamp : Nat
  from_state : Option GameState
  to_state : GameState
deriving DecidableEq

/-- The mutable fields of a zelda_2d `StateManager` instance. -/
structure StateManager where
  current_state : GameState
  previous_state : Option GameState
  state_history : List HistoryRecord
  enter_callbacks : GameState → List Callback
  exit_callbacks : GameState → List Callback
  valid_transitions : GameState → List GameState

/-- Model of `StateManager.can_transition_to`. -/
def can_transition_to (m : StateManager) (target_state : GameState) : Bool :=
  decide (target_state ∈ m.valid_transitions m.current_state)

/-- Model of `StateManager._record_state_change`: append a record; when the history
exceeds 100 records cut it to the last 50 (`state_history[-50:]`). -/
def record_state_change (m : StateManager) (old_state : Option GameState)
    (new_state : GameState) (now : Nat) : StateManager :=
  let record : HistoryRecord :=
    { timestamp := now, from_state := old_state, to_state := new_state }
  let h := m.state_history ++ [record]
  { m with state_history := if h.length > 100 then h.drop (h.length - 50) else h }

/-- Model of `StateManager.__init__(initial_state)`. -/
def init (initial_state : GameState) (now : Nat) : StateManager :=
  record_state_change
    { current_state := initial_state
      previous_state := none
      state_history := []
      enter_callbacks := fun _ => []
      exit_callbacks := fun _ => []
      valid_transitions := defaultTransitions }
    none initial_state now

/-- Model of `StateManager.change_state`.  Each callback runs inside
`try: cb() except Exception: pass`, so exceptions are swallowed. -/
def change_state (m : StateManager) (new_state : GameState) (now : Nat) :
    StateManager × List (Event GameState) × Bool :=
  if can_transition_to m new_state then
    let old_state := m.current_state
    let exitEvs := execCaught (σ := GameState) (m.exit_callbacks old_state)
    let m1 := { m with previous_state := some old_state, current_state := new_state }
    let m2 := record_state_change m1 (some old_state) new_state now
    let enterEvs := execCaught (σ := GameState) (m2.enter_callbacks new_state)
    (m2, exitEvs ++ Event.setState new_state :: enterEvs, true)
  else
    (m, [], false)

/-- Model of `StateManager.add_enter_callback`. -/
def add_enter_callback (m : StateManager) (state : GameState) (cb : Callback) :
    StateManager :=
  { m with enter_callbacks := fun s =>
      if s = state then m.enter_callbacks s ++ [cb] else m.enter_callbacks s }

/-- Model of `StateManager.add_exit_callback`. -/
def add_exit_callback (m : StateManager) (state : GameState) (cb : Callback) :
    StateManager :=
  { m with exit_callbacks := fun s =>
      if s = state then m.exit_callbacks s ++ [cb] else m.exit_callbacks s }

/-- Model of `StateManager.reset_to_menu`: simply delegates to
`change_state(GameState.MENU)` (so it is subject to the validity check); the
Python method returns `None`, so only the mutated manager and the events are
observable. -/
def reset_to_menu (m : StateManager) (now : Nat) :
    StateManager × List (Event GameState) :=
  let r := change_state m GameState.MENU now
  (r.1, r.2.1)

/-- Run a sequence of `change_state` calls, collecting the returned
booleans. -/
def changeSeq (m : StateManager) :
    List (GameState × Nat) → StateManager × List Bool
  | [] => (m, [])
  | c :: rest =>
    let r := change_state m c.1 c.2
    let s := changeSeq r.1 rest
    (s.1, r.2.2 :: s.2)

end Zelda2d

/-! Concrete machines used as inputs of witnesses and counterexamples.  Each
is built only through the constructor and the public mutators, so each is a
reachable instance. -/

/-- A flappy-birds manager at MENU with one registered exit callback on MENU
whose invocation raises. -/
def fbFailing : FlappyBirds.StateManager :=
  FlappyBirds.add_exit_callback (FlappyBirds.init FlappyBirds.GameState.MENU)
    FlappyBirds.GameState.MENU ⟨0, true⟩

/-- A flappy-birds manager at MENU with a well-behaved exit callback on MENU
and a well-behaved enter callback on PLAYING. -/
def fbTwoCallbacks : FlappyBirds.StateManager :=
  FlappyBirds.add_exit_callback
    (FlappyBirds.add_enter_callback (FlappyBirds.init FlappyBirds.GameState.MENU)
      FlappyBirds.GameState.PLAYING ⟨2, false⟩)
    FlappyBirds.GameState.MENU ⟨1, false⟩

/-- A text-adventure manager at MENU with one registered exit callback on MENU
whose invocation raises. -/
def taFailing : TextAdventure.StateManager :=
  TextAdventure.add_exit_callback (TextAdventure.init TextAdventure.GameState.MENU 0)
    TextAdventure.GameState.MENU ⟨7, true⟩

/-- A text-adventure manager that has reached the terminal QUIT state. -/
def taQuit : TextAdventure.StateManager :=
  (TextAdventure.change_state (TextAdventure.init TextAdventure.GameState.MENU 0)
    TextAdventure.GameState.QUIT 1).1

/-- A zelda_2d manager that has reached the terminal QUIT state. -/
def zQuit : Zelda2d.StateManager :=
  (Zelda2d.change_state (Zelda2d.init Zelda2d.GameState.MENU 0)
    Zelda2d.GameState.QUIT 1).1

/-- A flappy-birds manager after ten successful transitions
(MENU to PLAYING and back, five times over). -/
def fbRun : FlappyBirds.StateManager × List CallResult :=
  FlappyBirds.changeSeq (FlappyBirds.init FlappyBirds.GameState.MENU)
    [.PLAYING, .MENU, .PLAYING, .MENU, .PLAYING, .MENU, .PLAYING, .MENU, .PLAYING, .MENU]

/-- The first `change_state` call of a fresh text-adventure manager:
constructed at MENU with the clock at 0, then `change_state(PLAYING)` with
the clock at 1. -/
def taFirstChange :
    TextAdventure.StateManager × List (Event TextAdventure.GameState) × Bool :=
  TextAdventure.change_state (TextAdventure.init TextAdventure.GameState.MENU 0)
    TextAdventure.GameState.PLAYING 1

/-! Helper lemmas about callback execution. -/

theorem execUncaught_none_eq {σ : Type} {l : List Callback} {evs : List (Event σ)}
    (h : execUncaught (σ := σ) l = (evs, none)) : evs = l.map Event.ran := by
  induction l generalizing evs with
  | nil =>
    simp [execUncaught] at h
    simp [h]
  | cons cb rest ih =>
    by_cases hf : cb.fails
    · simp [execUncaught, hf] at h
    · simp [execUncaught, hf] at h
      rcases h with ⟨h1, h2⟩
      have h3 : execUncaught (σ := σ) rest = ((execUncaught (σ := σ) rest).1, none) := by
        rw [← h2]
      simp [← h1, List.map, ih h3]

theorem execUncaught_no_fail {σ : Type} {l : List Callback}
    (h : ∀ cb ∈ l, cb.fails = false) :
    execUncaught (σ := σ) l = (l.map Event.ran, none) := by
  induction l with
  | nil => simp [execUncaught]
  | cons cb rest ih =>
    have hcb : cb.fails = false := h cb (List.mem_cons_self cb rest)
    have hrest : ∀ c ∈ rest, c.fails = false := fun c hc => h c (List.mem_cons_of_mem cb hc)
    simp [execUncaught, hcb, ih hrest]

namespace FlappyBirds

theorem fb_change_state_invalid (m : StateManager) (t : GameState)
    (hv : is_valid_transition m t = false) :
    change_state m t = (m, [], CallResult.ret false) := by
  simp [change_state, hv]

theorem fb_change_state_exit_raised (m : StateManager) (t : GameState)
    (evs : List (Event GameState)) (cb : Callback)
    (hv : is_valid_transition m t = true)
    (hex : execUncaught (σ := GameState) (m.exit_callbacks m.current_state) = (evs, some cb)) :
    change_state m t = (m, evs, CallResult.raised cb) := by
  simp [change_state, hv, hex]

theorem fb_applyTransition_enter_callbacks (m : StateManager) (t : GameState) :
    (applyTransition m t).enter_callbacks = m.enter_callbacks := rfl

theorem fb_change_state_enter_raised (m : StateManager) (t : GameState)
    (evs1 evs2 : List (Event GameState)) (cb : Callback)
    (hv : is_valid_transition m t = true)
    (hex : execUncaught (σ := GameState) (m.exit_callbacks m.current_state) = (evs1, none))
    (hen : execUncaught (σ := GameState) (m.enter_callbacks t) = (evs2, some cb)) :
    change_state m t =
      (applyTransition m t, evs1 ++ Event.setState t :: evs2, CallResult.raised cb) := by
  simp [change_state, hv, hex, fb_applyTransition_enter_callbacks, hen]

theorem fb_change_state_ok (m : StateManager) (t : GameState)
    (evs1 evs2 : List (Event GameState))
    (hv : is_valid_transition m t = true)
    (hex : execUncaught (σ := GameState) (m.exit_callbacks m.current_state) = (evs1, none))
    (hen : execUncaught (σ := GameState) (m.enter_callbacks t) = (evs2, none)) :
    change_state m t =
      (applyTransition m t, evs1 ++ Event.setState t :: evs2, CallResult.ret true) := by
  simp [change_state, hv, hex, fb_applyTransition_enter_callbacks, hen]

theorem fb_ret_true_elim (m : StateManager) (t : GameState)
    (h : (change_state m t).2.2 = CallResult.ret true) :
    is_valid_transition m t = true ∧
    execUncaught (σ := GameState) (m.exit_callbacks m.current_state) =
      ((m.exit_callbacks m.current_state).map Event.ran, none) ∧
    execUncaught (σ := GameState) (m.enter_callbacks t) =
      ((m.enter_callbacks t).map Event.ran, none) := by
  rcases hv : is_valid_transition m t with _ | _
  · rw [fb_change_state_invalid m t hv] at h
    simp at h
  · rcases hex : execUncaught (σ := GameState) (m.exit_callbacks m.current_state) with ⟨evs1, _ | cb1⟩
    · rcases hen : execUncaught (σ := GameState) (m.enter_callbacks t) with ⟨evs2, _ | cb2⟩
      · have h1 := execUncaught_none_eq hex
        have h2 := execUncaught_none_eq hen
        subst h1
        subst h2
        exact ⟨rfl, rfl, rfl⟩
      · rw [fb_change_state_enter_raised m t evs1 evs2 cb2 hv hex hen] at h
        simp at h
    · rw [fb_change_state_exit_raised m t evs1 cb1 hv hex] at h
      simp at h

theorem fb_change_state_ret_true_eq (m : StateManager) (t : GameState)
    (h : (change_state m t).2.2 = CallResult.ret true) :
    change_state m t =
      (applyTransition m t,
       (m.exit_callbacks m.current_state).map Event.ran ++
         Event.setState t :: (m.enter_callbacks t).map Event.ran,
       CallResult.ret true) := by
  rcases fb_ret_true_elim m t h with ⟨hv, hex, hen⟩
  exact fb_change_state_ok m t _ _ hv hex hen

end FlappyBirds

/-! Helper lemmas about the two history-trimming patterns. -/

theorem trim_drop_suffix {α : Type} (h : List α) (cap keep : Nat) :
    (if h.length > cap then h.drop (h.length - keep) else h) <:+ h := by
  split
  · exact List.drop_suffix _ _
  · exact List.suffix_refl _

theorem trim_drop_length {α : Type} (h : List α) (cap keep : Nat)
    (hk : keep ≤ cap) (hh : h.length ≤ cap + 1) :
    (if h.length > cap then h.drop (h.length - keep) else h).length ≤ cap := by
  split
  · rw [List.length_drop]
    omega
  · omega

theorem trim_tail_suffix {α : Type} (h : List α) (cap : Nat) :
    (if h.length > cap then h.tail else h) <:+ h := by
  split
  · exact List.tail_suffix _
  · exact List.suffix_refl _

theorem trim_tail_length {α : Type} (h : List α) (cap : Nat)
    (hh : h.length ≤ cap + 1) :
    (if h.length > cap then h.tail else h).length ≤ cap := by
  split
  · rw [List.length_tail]
    omega
  · omega

namespace FlappyBirds

theorem fb_change_state_history_step (m : StateManager) (t : GameState) :
    (change_state m t).1.state_history = m.state_history ∨
    (change_state m t).1.state_history <:+ m.state_history ++ [t] := by
  rcases hv : is_valid_transition m t with _ | _
  · rw [fb_change_state_invalid m t hv]
    exact Or.inl rfl
  · rcases hex : execUncaught (σ := GameState) (m.exit_callbacks m.current_state) with
      ⟨evs1, _ | cb1⟩
    · rcases hen : execUncaught (σ := GameState) (m.enter_callbacks t) with ⟨evs2, _ | cb2⟩
      · rw [fb_change_state_ok m t evs1 evs2 hv hex hen]
        exact Or.inr (trim_tail_suffix _ 10)
      · rw [fb_change_state_enter_raised m t evs1 evs2 cb2 hv hex hen]
        exact Or.inr (trim_tail_suffix _ 10)
    · rw [fb_change_state_exit_raised m t evs1 cb1 hv hex]
      exact Or.inl rfl

theorem fb_change_state_history_length (m : StateManager) (t : GameState)
    (hm : m.state_history.length ≤ 10) :
    (change_state m t).1.state_history.length ≤ 10 := by
  have hlen : (m.state_history ++ [t]).length ≤ 11 := by
    simp only [List.length_append, List.length_cons, List.length_nil]
    omega
  rcases hv : is_valid_transition m t with _ | _
  · rw [fb_change_state_invalid m t hv]
    exact hm
  · rcases hex : execUncaught (σ := GameState) (m.exit_callbacks m.current_state) with
      ⟨evs1, _ | cb1⟩
    · rcases hen : execUncaught (σ := GameState) (m.enter_callbacks t) with ⟨evs2, _ | cb2⟩
      · rw [fb_change_state_ok m t evs1 evs2 hv hex hen]
        exact trim_tail_length _ 10 hlen
      · rw [fb_change_state_enter_raised m t evs1 evs2 cb2 hv hex hen]
        exact trim_tail_length _ 10 hlen
    · rw [fb_change_state_exit_raised m t evs1 cb1 hv hex]
      exact hm

theorem fb_changeSeq_history_length (l : List GameState) (m : StateManager)
    (hm : m.state_history.length ≤ 10) :
    (changeSeq m l).1.state_history.length ≤ 10 := by
  induction l generalizing m with
  | nil => exact hm
  | cons t rest ih =>
    exact ih (change_state m t).1 (fb_change_state_history_length m t hm)

end FlappyBirds

namespace TextAdventure

theorem ta_change_state_invalid (m : StateManager) (t : GameState) (now : Nat)
    (hv : can_transition_to m t = false) :
    change_state m t now = (m, [], false) := by
  simp [change_state, hv]

theorem ta_record_state_change_current (m : StateManager) (o : Option GameState)
    (n : GameState) (now : Nat) :
    (record_state_change m o n now).current_state = m.current_state := rfl

theorem ta_record_state_change_previous (m : StateManager) (o : Option GameState)
    (n : GameState) (now : Nat) :
    (record_state_change m o n now).previous_state = m.previous_state := rfl

theorem ta_record_state_change_enter_callbacks (m : StateManager) (o : Option GameState)
    (n : GameState) (now : Nat) :
    (record_state_change m o n now).enter_callbacks = m.enter_callbacks := rfl

theorem ta_change_state_valid_eq (m : StateManager) (t : GameState) (now : Nat)
    (hv : can_transition_to m t = true) :
    change_state m t now =
      (record_state_change
         { m with previous_state := some m.current_state, current_state := t }
         (some m.current_state) t now,
       execCaught (σ := GameState) (m.exit_callbacks m.current_state) ++
         Event.setState t :: execCaught (σ := GameState) (m.enter_callbacks t),
       true) := by
  simp [change_state, hv, ta_record_state_change_enter_callbacks]

theorem ta_change_state_result (m : StateManager) (t : GameState) (now : Nat) :
    (change_state m t now).2.2 = can_transition_to m t := by
  rcases hv : can_transition_to m t with _ | _
  · rw [ta_change_state_invalid m t now hv]
  · rw [ta_change_state_valid_eq m t now hv]

theorem ta_record_state_change_suffix (m : StateManager) (o : Option GameState)
    (n : GameState) (now : Nat) :
    ∃ r, (record_state_change m o n now).state_history <:+ m.state_history ++ [r] :=
  ⟨_, trim_drop_suffix (m.state_history ++ [_]) 100 50⟩

theorem ta_record_state_change_length (m : StateManager) (o : Option GameState)
    (n : GameState) (now : Nat) (hm : m.state_history.length ≤ 100) :
    (record_state_change m o n now).state_history.length ≤ 100 :=
  trim_drop_length (m.state_history ++ [_]) 100 50 (by omega)
    (by simp only [List.length_append, List.length_cons, List.length_nil]; omega)

theorem ta_change_state_history_step (m : StateManager) (t : GameState) (now : Nat) :
    (change_state m t now).1.state_history = m.state_history ∨
    ∃ r, (change_state m t now).1.state_history <:+ m.state_history ++ [r] := by
  rcases hv : can_transition_to m t with _ | _
  · rw [ta_change_state_invalid m t now hv]
    exact Or.inl rfl
  · rw [ta_change_state_valid_eq m t now hv]
    exact Or.inr (ta_record_state_change_suffix _ _ _ _)

theorem ta_change_state_history_length (m : StateManager) (t : GameState) (now : Nat)
    (hm : m.state_history.length ≤ 100) :
    (change_state m t now).1.state_history.length ≤ 100 := by
  rcases hv : can_transition_to m t with _ | _
  · rw [ta_change_state_invalid m t now hv]
    exact hm
  · rw [ta_change_state_valid_eq m t now hv]
    exact ta_record_state_change_length _ _ _ _ hm

theorem ta_changeSeq_history_length (l : List (GameState × Nat)) (m : StateManager)
    (hm : m.state_history.length ≤ 100) :
    (changeSeq m l).1.state_history.length ≤ 100 := by
  induction l generalizing m with
  | nil => exact hm
  | cons c rest ih =>
    exact ih (change_state m c.1 c.2).1 (ta_change_state_history_length m c.1 c.2 hm)

theorem ta_change_state_quit (m : StateManager) (t : GameState) (now : Nat)
    (hq : m.valid_transitions GameState.QUIT = [])
    (hc : m.current_state = GameState.QUIT) :
    change_state m t now = (m, [], false) := by
  apply ta_change_state_invalid
  simp [can_transition_to, hc, hq]

theorem ta_changeSeq_quit (m : StateManager) (calls : List (GameState × Nat))
    (hq : m.valid_transitions GameState.QUIT = [])
    (hc : m.current_state = GameState.QUIT) :
    changeSeq m calls = (m, calls.map fun _ => false) := by
  induction calls with
  | nil => rfl
  | cons c rest ih =>
    simp [changeSeq, ta_change_state_quit m c.1 c.2 hq hc, ih]

end TextAdventure

namespace Zelda2d

theorem z_change_state_invalid (m : StateManager) (t : GameState) (now : Nat)
    (hv : can_transition_to m t = false) :
    change_state m t now = (m, [], false) := by
  simp [change_state, hv]

theorem z_record_state_change_enter_callbacks (m : StateManager) (o : Option GameState)
    (n : GameState) (now : Nat) :
    (record_state_change m o n now).enter_callbacks = m.enter_callbacks := rfl

theorem z_change_state_valid_eq (m : StateManager) (t : GameState) (now : Nat)
    (hv : can_transition_to m t = true) :
    change_state m t now =
      (record_state_change
         { m with previous_state := some m.current_state, current_state := t }
         (some m.current_state) t now,
       execCaught (σ := GameState) (m.exit_callbacks m.current_state) ++
         Event.setState t :: execCaught (σ := GameState) (m.enter_callbacks t),
       true) := by
  simp [change_state, hv, z_record_state_change_enter_callbacks]

theorem z_change_state_result (m : StateManager) (t : GameState) (now : Nat) :
    (change_state m t now).2.2 = can_transition_to m t := by
  rcases hv : can_transition_to m t with _ | _
  · rw [z_change_state_invalid m t now hv]
  · rw [z_change_state_valid_eq m t now hv]

theorem z_record_state_change_suffix (m : StateManager) (o : Option GameState)
    (n : GameState) (now : Nat) :
    ∃ r, (record_state_change m o n now).state_history <:+ m.state_history ++ [r] :=
  ⟨_, trim_drop_suffix (m.state_history ++ [_]) 100 50⟩

theorem z_record_state_change_length (m : StateManager) (o : Option GameState)
    (n : GameState) (now : Nat) (hm : m.state_history.length ≤ 100) :
    (record_state_change m o n now).state_history.length ≤ 100 :=
  trim_drop_length (m.state_history ++ [_]) 100 50 (by omega)
    (by simp only [List.length_append, List.length_cons, List.length_nil]; omega)

theorem z_change_state_history_step (m : StateManager) (t : GameState) (now : Nat) :
    (change_state m t now).1.state_history = m.state_history ∨
    ∃ r, (change_state m t now).1.state_history <:+ m.state_history ++ [r] := by
  rcases hv : can_transition_to m t with _ | _
  · rw [z_change_state_invalid m t now hv]
    exact Or.inl rfl
  · rw [z_change_state_valid_eq m t now hv]
    exact Or.inr (z_record_state_change_suffix _ _ _ _)

theorem z_change_state_history_length (m : StateManager) (t : GameState) (now : Nat)
    (hm : m.state_history.length ≤ 100) :
    (change_state m t now).1.state_history.length ≤ 100 := by
  rcases hv : can_transition_to m t with _ | _
  · rw [z_change_state_invalid m t now hv]
    exact hm
  · rw [z_change_state_valid_eq m t now hv]
    exact z_record_state_change_length _ _ _ _ hm

theorem z_changeSeq_history_length (l : List (GameState × Nat)) (m : StateManager)
    (hm : m.state_history.length ≤ 100) :
    (changeSeq m l).1.state_history.length ≤ 100 := by
  induction l generalizing m with
  | nil => exact hm
  | cons c rest ih =>
    exact ih (change_state m c.1 c.2).1 (z_change_state_history_length m c.1 c.2 hm)

theorem z_change_state_quit (m : StateManager) (t : GameState) (now : Nat)
    (hq : m.valid_transitions GameState.QUIT = [])
    (hc : m.current_state = GameState.QUIT) :
    change_state m t now = (m, [], false) := by
  apply z_change_state_invalid
  simp [can_transition_to, hc, hq]

theorem z_changeSeq_quit (m : StateManager) (calls : List (GameState × Nat))
    (hq : m.valid_transitions GameState.QUIT = [])
    (hc : m.current_state = GameState.QUIT) :
    changeSeq m calls = (m, calls.map fun _ => false) := by
  induction calls with
  | nil => rfl
  | cons c rest ih =>
    simp [changeSeq, z_change_state_quit m c.1 c.2 hq hc, ih]

end Zelda2d

/-! Claim theorems. -/

/-- Claim C1, counterexample.  The claim says `change_state(T)` returns true
if and only if `T` is in the transition-table entry of the current state, in
any reachable machine state.  In the reachable flappy-birds machine
`fbFailing` the target PLAYING is in the entry for the current state MENU,
yet the call does not return true: the registered exit callback raises and
the exception propagates out of `change_state`. -/
theorem C1_counterexample :
    FlappyBirds.GameState.PLAYING ∈
      fbFailing.valid_transitions fbFailing.current_state ∧
    (FlappyBirds.change_state fbFailing FlappyBirds.GameState.PLAYING).2.2 =
      CallResult.raised ⟨0, true⟩ ∧
    (FlappyBirds.change_state fbFailing FlappyBirds.GameState.PLAYING).2.2 ≠
      CallResult.ret true := by
  decide

/-- Claim C1 (amended): in the text adventure and zelda_2d, `change_state(T)`
returns true if and only if `T ∈ valid_transitions[current]`, in every machine
state.  In flappy_birds the same equivalence holds provided no registered
exit callback of the current state and no enter callback of `T` raises; and
for `T` outside the entry, flappy_birds `change_state` returns false
unconditionally (validation happens before any callback runs). -/
theorem C1_amended :
    (∀ (m : FlappyBirds.StateManager) (t : FlappyBirds.GameState),
        (∀ cb ∈ m.exit_callbacks m.current_state, cb.fails = false) →
        (∀ cb ∈ m.enter_callbacks t, cb.fails = false) →
        ((FlappyBirds.change_state m t).2.2 = CallResult.ret true ↔
          t ∈ m.valid_transitions m.current_state)) ∧
    (∀ (m : FlappyBirds.StateManager) (t : FlappyBirds.GameState),
        t ∉ m.valid_transitions m.current_state →
        (FlappyBirds.change_state m t).2.2 = CallResult.ret false) ∧
    (∀ (m : TextAdventure.StateManager) (t : TextAdventure.GameState) (now : Nat),
        ((TextAdventure.change_state m t now).2.2 = true ↔
          t ∈ m.valid_transitions m.current_state)) ∧
    (∀ (m : Zelda2d.StateManager) (t : Zelda2d.GameState) (now : Nat),
        ((Zelda2d.change_state m t now).2.2 = true ↔
          t ∈ m.valid_transitions m.current_state)) := by
  refine ⟨?_, ?_, ?_, ?_⟩
  · intro m t hex hen
    constructor
    · intro h
      have hv := (FlappyBirds.fb_ret_true_elim m t h).1
      exact of_decide_eq_true hv
    · intro hmem
      have hv : FlappyBirds.is_valid_transition m t = true := by
        simp [FlappyBirds.is_valid_transition, hmem]
      rw [FlappyBirds.fb_change_state_ok m t _ _ hv
        (execUncaught_no_fail hex) (execUncaught_no_fail hen)]
  · intro m t hmem
    have hv : FlappyBirds.is_valid_transition m t = false := by
      simp [FlappyBirds.is_valid_transition, hmem]
    rw [FlappyBirds.fb_change_state_invalid m t hv]
  · intro m t now
    rw [TextAdventure.ta_change_state_result]
    simp [TextAdventure.can_transition_to]
  · intro m t now
    rw [Zelda2d.z_change_state_result]
    simp [Zelda2d.can_transition_to]

/-- Claim C1, witness: concrete instances of the amended theorem on fresh
machines (no callbacks registered, so the no-raise hypotheses hold). -/
theorem C1_witness :
    (FlappyBirds.change_state (FlappyBirds.init FlappyBirds.GameState.MENU)
        FlappyBirds.GameState.PLAYING).2.2 = CallResult.ret true ∧
    (FlappyBirds.change_state (FlappyBirds.init FlappyBirds.GameState.MENU)
        FlappyBirds.GameState.PAUSED).2.2 = CallResult.ret false ∧
    (TextAdventure.change_state (TextAdventure.init TextAdventure.GameState.MENU 0)
        TextAdventure.GameState.PLAYING 1).2.2 = true ∧
    (Zelda2d.change_state (Zelda2d.init Zelda2d.GameState.MENU 0)
        Zelda2d.GameState.PLAYING 1).2.2 = true :=
  ⟨(C1_amended.1 _ _ (by decide) (by decide)).mpr (by decide),
   C1_amended.2.1 _ _ (by decide),
   (C1_amended.2.2.1 _ _ 1).mpr (by decide),
   (C1_amended.2.2.2 _ _ 1).mpr (by decide)⟩

/-- Claim C2, counterexample.  The claim says that in every game a callback
exception raised during `change_state` is caught and the transition still
completes.  In the reachable flappy-birds machine `fbFailing` (current state
MENU, one raising exit callback on MENU), `change_state(PLAYING)` lets the
exception escape and the transition does not complete: the current state is
still MENU afterwards. -/
theorem C2_counterexample :
    (FlappyBirds.change_state fbFailing FlappyBirds.GameState.PLAYING).2.2 =
      CallResult.raised ⟨0, true⟩ ∧
    (FlappyBirds.change_state fbFailing FlappyBirds.GameState.PLAYING).1.current_state =
      FlappyBirds.GameState.MENU ∧
    (FlappyBirds.change_state fbFailing FlappyBirds.GameState.PLAYING).1.previous_state =
      none := by
  decide

/-- Claim C2 (amended): in the text adventure and zelda_2d a failing callback
is caught, every registered callback still runs exactly once (failing ones
leaving a caught-error event in the trace), and a valid transition completes
and returns true.  In flappy_birds callback exceptions propagate out of
`change_state`: a raising exit callback aborts the call with the machine
unchanged, and a raising enter callback escapes after the state was already
updated. -/
theorem C2_amended :
    (∀ (m : TextAdventure.StateManager) (t : TextAdventure.GameState) (now : Nat),
        TextAdventure.can_transition_to m t = true →
        (TextAdventure.change_state m t now).2.2 = true ∧
        (TextAdventure.change_state m t now).1.current_state = t ∧
        (TextAdventure.change_state m t now).2.1 =
          (m.exit_callbacks m.current_state).map evCaught ++
            Event.setState t :: (m.enter_callbacks t).map evCaught) ∧
    (∀ (m : Zelda2d.StateManager) (t : Zelda2d.GameState) (now : Nat),
        Zelda2d.can_transition_to m t = true →
        (Zelda2d.change_state m t now).2.2 = true ∧
        (Zelda2d.change_state m t now).1.current_state = t ∧
        (Zelda2d.change_state m t now).2.1 =
          (m.exit_callbacks m.current_state).map evCaught ++
            Event.setState t :: (m.enter_callbacks t).map evCaught) ∧
    (∀ (m : FlappyBirds.StateManager) (t : FlappyBirds.GameState)
        (evs : List (Event FlappyBirds.GameState)) (cb : Callback),
        FlappyBirds.is_valid_transition m t = true →
        execUncaught (σ := FlappyBirds.GameState) (m.exit_callbacks m.current_state) =
          (evs, some cb) →
        FlappyBirds.change_state m t = (m, evs, CallResult.raised cb)) ∧
    (∀ (m : FlappyBirds.StateManager) (t : FlappyBirds.GameState)
        (evs1 evs2 : List (Event FlappyBirds.GameState)) (cb : Callback),
        FlappyBirds.is_valid_transition m t = true →
        execUncaught (σ := FlappyBirds.GameState) (m.exit_callbacks m.current_state) =
          (evs1, none) →
        execUncaught (σ := FlappyBirds.GameState) (m.enter_callbacks t) =
          (evs2, some cb) →
        FlappyBirds.change_state m t =
          (FlappyBirds.applyTransition m t, evs1 ++ Event.setState t :: evs2,
           CallResult.raised cb)) := by
  refine ⟨?_, ?_, ?_, ?_⟩
  · intro m t now hv
    rw [TextAdventure.ta_change_state_valid_eq m t now hv]
    exact ⟨rfl, rfl, rfl⟩
  · intro m t now hv
    rw [Zelda2d.z_change_state_valid_eq m t now hv]
    exact ⟨rfl, rfl, rfl⟩
  · intro m t evs cb hv hex
    exact FlappyBirds.fb_change_state_exit_raised m t evs cb hv hex
  · intro m t evs1 evs2 cb hv hex hen
    exact FlappyBirds.fb_change_state_enter_raised m t evs1 evs2 cb hv hex hen

/-- Claim C2, witness: on the text-adventure machine `taFailing` (a raising
exit callback on MENU) the transition to PLAYING still completes, returns
true, and the trace records the caught error; and on `fbFailing` the raised
exception is the call result. -/
theorem C2_witness :
    ((TextAdventure.change_state taFailing TextAdventure.GameState.PLAYING 1).2.2 = true ∧
     (TextAdventure.change_state taFailing TextAdventure.GameState.PLAYING 1).1.current_state =
       TextAdventure.GameState.PLAYING ∧
     (TextAdventure.change_state taFailing TextAdventure.GameState.PLAYING 1).2.1 =
       [Event.errorCaught ⟨7, true⟩, Event.setState TextAdventure.GameState.PLAYING]) ∧
    FlappyBirds.change_state fbFailing FlappyBirds.GameState.PLAYING =
      (fbFailing, [], CallResult.raised ⟨0, true⟩) :=
  ⟨⟨(C2_amended.1 taFailing TextAdventure.GameState.PLAYING 1 (by decide)).1,
    (C2_amended.1 taFailing TextAdventure.GameState.PLAYING 1 (by decide)).2.1,
    ((C2_amended.1 taFailing TextAdventure.GameState.PLAYING 1 (by decide)).2.2).trans
      (by decide)⟩,
   C2_amended.2.2.1 fbFailing FlappyBirds.GameState.PLAYING [] ⟨0, true⟩
     (by decide) (by decide)⟩

/-- Claim C3: in every successful `change_state(T)` of every game, all exit
callbacks of the outgoing state run before the `current_state` assignment and
all enter callbacks of `T` after it, each list in registration order: the
event trace is exactly the exit-callback invocations in registration order,
then the state assignment, then the enter-callback invocations in
registration order. -/
theorem C3_callback_order :
    (∀ (m : FlappyBirds.StateManager) (t : FlappyBirds.GameState),
        (FlappyBirds.change_state m t).2.2 = CallResult.ret true →
        (FlappyBirds.change_state m t).2.1 =
          (m.exit_callbacks m.current_state).map Event.ran ++
            Event.setState t :: (m.enter_callbacks t).map Event.ran) ∧
    (∀ (m : TextAdventure.StateManager) (t : TextAdventure.GameState) (now : Nat),
        (TextAdventure.change_state m t now).2.2 = true →
        (TextAdventure.change_state m t now).2.1 =
          (m.exit_callbacks m.current_state).map evCaught ++
            Event.setState t :: (m.enter_callbacks t).map evCaught) ∧
    (∀ (m : Zelda2d.StateManager) (t : Zelda2d.GameState) (now : Nat),
        (Zelda2d.change_state m t now).2.2 = true →
        (Zelda2d.change_state m t now).2.1 =
          (m.exit_callbacks m.current_state).map evCaught ++
            Event.setState t :: (m.enter_callbacks t).map evCaught) := by
  refine ⟨?_, ?_, ?_⟩
  · intro m t h
    rw [FlappyBirds.fb_change_state_ret_true_eq m t h]
  · intro m t now h
    have hv : TextAdventure.can_transition_to m t = true :=
      (TextAdventure.ta_change_state_result m t now).symm.trans h
    rw [TextAdventure.ta_change_state_valid_eq m t now hv]
    rfl
  · intro m t now h
    have hv : Zelda2d.can_transition_to m t = true :=
      (Zelda2d.z_change_state_result m t now).symm.trans h
    rw [Zelda2d.z_change_state_valid_eq m t now hv]
    rfl

/-- Claim C3, witness: on `fbTwoCallbacks` (exit callback id 1 on MENU, enter
callback id 2 on PLAYING) the successful transition MENU to PLAYING produces
exactly the trace exit-callback, state assignment, enter-callback. -/
theorem C3_witness :
    (FlappyBirds.change_state fbTwoCallbacks FlappyBirds.GameState.PLAYING).2.2 =
      CallResult.ret true ∧
    (FlappyBirds.change_state fbTwoCallbacks FlappyBirds.GameState.PLAYING).2.1 =
      [Event.ran ⟨1, false⟩, Event.setState FlappyBirds.GameState.PLAYING,
       Event.ran ⟨2, false⟩] :=
  ⟨by decide,
   (C3_callback_order.1 fbTwoCallbacks FlappyBirds.GameState.PLAYING (by decide)).trans
     (by decide)⟩

/-- Claim C4: in the two games whose enumeration contains QUIT (the text
adventure and zelda_2d), the constructed transition table maps QUIT to the
empty list, and for any manager whose table entry for QUIT is empty and whose
current state is QUIT, `can_transition_to` is false for every target and
every subsequent sequence of `change_state` calls leaves the machine at QUIT
with every call returning false. -/
theorem C4_quit_sink :
    TextAdventure.defaultTransitions TextAdventure.GameState.QUIT = [] ∧
    Zelda2d.defaultTransitions Zelda2d.GameState.QUIT = [] ∧
    (∀ (m : TextAdventure.StateManager),
        m.valid_transitions TextAdventure.GameState.QUIT = [] →
        m.current_state = TextAdventure.GameState.QUIT →
        (∀ t, TextAdventure.can_transition_to m t = false) ∧
        ∀ calls,
          (TextAdventure.changeSeq m calls).1.current_state =
            TextAdventure.GameState.QUIT ∧
          ∀ b ∈ (TextAdventure.changeSeq m calls).2, b = false) ∧
    (∀ (m : Zelda2d.StateManager),
        m.valid_transitions Zelda2d.GameState.QUIT = [] →
        m.current_state = Zelda2d.GameState.QUIT →
        (∀ t, Zelda2d.can_transition_to m t = false) ∧
        ∀ calls,
          (Zelda2d.changeSeq m calls).1.current_state = Zelda2d.GameState.QUIT ∧
          ∀ b ∈ (Zelda2d.changeSeq m calls).2, b = false) := by
  refine ⟨rfl, rfl, ?_, ?_⟩
  · intro m hq hc
    refine ⟨fun t => by simp [TextAdventure.can_transition_to, hc, hq], fun calls => ?_⟩
    rw [TextAdventure.ta_changeSeq_quit m calls hq hc]
    refine ⟨hc, fun b hb => ?_⟩
    rcases List.mem_map.mp hb with ⟨a, _, ha⟩
    exact ha.symm
  · intro m hq hc
    refine ⟨fun t => by simp [Zelda2d.can_transition_to, hc, hq], fun calls => ?_⟩
    rw [Zelda2d.z_changeSeq_quit m calls hq hc]
    refine ⟨hc, fun b hb => ?_⟩
    rcases List.mem_map.mp hb with ⟨a, _, ha⟩
    exact ha.symm

/-- Claim C4, witness: the reachable machines `taQuit` and `zQuit` are stuck:
no target is accepted and a follow-up `change_state` sequence stays at QUIT
returning false. -/
theorem C4_witness :
    TextAdventure.can_transition_to taQuit TextAdventure.GameState.MENU = false ∧
    (TextAdventure.changeSeq taQuit
      [(TextAdventure.GameState.MENU, 2), (TextAdventure.GameState.PLAYING, 3)]).1.current_state =
      TextAdventure.GameState.QUIT ∧
    Zelda2d.can_transition_to zQuit Zelda2d.GameState.MENU = false ∧
    (Zelda2d.changeSeq zQuit [(Zelda2d.GameState.MENU, 2)]).1.current_state =
      Zelda2d.GameState.QUIT :=
  ⟨(C4_quit_sink.2.2.1 taQuit (by decide) (by decide)).1 TextAdventure.GameState.MENU,
   ((C4_quit_sink.2.2.1 taQuit (by decide) (by decide)).2 _).1,
   (C4_quit_sink.2.2.2 zQuit (by decide) (by decide)).1 Zelda2d.GameState.MENU,
   ((C4_quit_sink.2.2.2 zQuit (by decide) (by decide)).2 _).1⟩

/-- Claim C5, counterexample.  The claim says every game's reset-to-menu
operation unconditionally ends at MENU, bypassing the validity check, even
from QUIT.  In zelda_2d, `reset_to_menu` merely delegates to
`change_state(MENU)`; on the reachable machine `zQuit` (current state QUIT,
whose outgoing set is empty) it is rejected by the validity check: the
current state is still QUIT afterwards and no callback or state-set event
occurs. -/
theorem C5_counterexample :
    zQuit.current_state = Zelda2d.GameState.QUIT ∧
    (Zelda2d.reset_to_menu zQuit 2).1.current_state = Zelda2d.GameState.QUIT ∧
    (Zelda2d.reset_to_menu zQuit 2).1.current_state ≠ Zelda2d.GameState.MENU ∧
    (Zelda2d.reset_to_menu zQuit 2).2 = [] := by
  decide

/-- Claim C5 (amended): the text adventure's `reset_to_menu` unconditionally
ends at MENU, returning true, running the exit callbacks of the state it was
called from (skipped only when that state is already MENU) and then the enter
callbacks of MENU.  The flappy-birds `reset` also unconditionally ends at
MENU but runs no callbacks at all and clears `previous_state` and the
history.  The zelda_2d `reset_to_menu` is just `change_state(MENU)`: it is
subject to the validity check and can fail, leaving the state unchanged. -/
theorem C5_amended :
    (∀ (m : TextAdventure.StateManager) (now : Nat),
        (TextAdventure.reset_to_menu m now).1.current_state =
          TextAdventure.GameState.MENU ∧
        (TextAdventure.reset_to_menu m now).2.2 = true ∧
        (TextAdventure.reset_to_menu m now).1.previous_state = some m.current_state ∧
        (TextAdventure.reset_to_menu m now).2.1 =
          (if m.current_state = TextAdventure.GameState.MENU then []
           else (m.exit_callbacks m.current_state).map evCaught) ++
            Event.setState TextAdventure.GameState.MENU ::
              (m.enter_callbacks TextAdventure.GameState.MENU).map evCaught) ∧
    (∀ m : FlappyBirds.StateManager,
        (FlappyBirds.reset m).current_state = FlappyBirds.GameState.MENU ∧
        (FlappyBirds.reset m).previous_state = none ∧
        (FlappyBirds.reset m).state_history = [FlappyBirds.GameState.MENU]) ∧
    (∀ (m : Zelda2d.StateManager) (now : Nat),
        Zelda2d.reset_to_menu m now =
          ((Zelda2d.change_state m Zelda2d.GameState.MENU now).1,
           (Zelda2d.change_state m Zelda2d.GameState.MENU now).2.1)) :=
  ⟨fun _ _ => ⟨rfl, rfl, rfl, rfl⟩,
   fun _ => ⟨rfl, rfl, rfl⟩,
   fun _ _ => rfl⟩

/-- Claim C6: a `change_state` call with a target not reachable from the
current state returns false and is a complete no-op in every game: the
returned manager is the very machine that was passed in (same current and
previous state, history, callback lists and transition table) and the event
trace is empty. -/
theorem C6_invalid_rejected :
    (∀ (m : FlappyBirds.StateManager) (t : FlappyBirds.GameState),
        t ∉ m.valid_transitions m.current_state →
        FlappyBirds.change_state m t = (m, [], CallResult.ret false)) ∧
    (∀ (m : TextAdventure.StateManager) (t : TextAdventure.GameState) (now : Nat),
        t ∉ m.valid_transitions m.current_state →
        TextAdventure.change_state m t now = (m, [], false)) ∧
    (∀ (m : Zelda2d.StateManager) (t : Zelda2d.GameState) (now : Nat),
        t ∉ m.valid_transitions m.current_state →
        Zelda2d.change_state m t now = (m, [], false)) := by
  refine ⟨?_, ?_, ?_⟩
  · intro m t hmem
    exact FlappyBirds.fb_change_state_invalid m t
      (by simp [FlappyBirds.is_valid_transition, hmem])
  · intro m t now hmem
    exact TextAdventure.ta_change_state_invalid m t now
      (by simp [TextAdventure.can_transition_to, hmem])
  · intro m t now hmem
    exact Zelda2d.z_change_state_invalid m t now
      (by simp [Zelda2d.can_transition_to, hmem])

/-- Claim C6, witness: concrete rejected transitions in the three games
(PAUSED is not reachable from MENU in flappy_birds, INVENTORY not from MENU
in the text adventure, PAUSED not from MENU in zelda_2d). -/
theorem C6_witness :
    FlappyBirds.change_state (FlappyBirds.init FlappyBirds.GameState.MENU)
      FlappyBirds.GameState.PAUSED =
      (FlappyBirds.init FlappyBirds.GameState.MENU, [], CallResult.ret false) ∧
    TextAdventure.change_state (TextAdventure.init TextAdventure.GameState.MENU 0)
      TextAdventure.GameState.INVENTORY 1 =
      (TextAdventure.init TextAdventure.GameState.MENU 0, [], false) ∧
    Zelda2d.change_state (Zelda2d.init Zelda2d.GameState.MENU 0)
      Zelda2d.GameState.PAUSED 1 =
      (Zelda2d.init Zelda2d.GameState.MENU 0, [], false) :=
  ⟨C6_invalid_rejected.1 _ _ (by decide),
   C6_invalid_rejected.2.1 _ _ 1 (by decide),
   C6_invalid_rejected.2.2 _ _ 1 (by decide)⟩

/-- Claim C7: after any `change_state` call that returns true, the current
state equals the target and the previous state equals the current state as it
was immediately before the call, in all three games. -/
theorem C7_post_state :
    (∀ (m : FlappyBirds.StateManager) (t : FlappyBirds.GameState),
        (FlappyBirds.change_state m t).2.2 = CallResult.ret true →
        (FlappyBirds.change_state m t).1.current_state = t ∧
        (FlappyBirds.change_state m t).1.previous_state = some m.current_state) ∧
    (∀ (m : TextAdventure.StateManager) (t : TextAdventure.GameState) (now : Nat),
        (TextAdventure.change_state m t now).2.2 = true →
        (TextAdventure.change_state m t now).1.current_state = t ∧
        (TextAdventure.change_state m t now).1.previous_state = some m.current_state) ∧
    (∀ (m : Zelda2d.StateManager) (t : Zelda2d.GameState) (now : Nat),
        (Zelda2d.change_state m t now).2.2 = true →
        (Zelda2d.change_state m t now).1.current_state = t ∧
        (Zelda2d.change_state m t now).1.previous_state = some m.current_state) := by
  refine ⟨?_, ?_, ?_⟩
  · intro m t h
    rw [FlappyBirds.fb_change_state_ret_true_eq m t h]
    exact ⟨rfl, rfl⟩
  · intro m t now h
    have hv : TextAdventure.can_transition_to m t = true :=
      (TextAdventure.ta_change_state_result m t now).symm.trans h
    rw [TextAdventure.ta_change_state_valid_eq m t now hv]
    exact ⟨rfl, rfl⟩
  · intro m t now h
    have hv : Zelda2d.can_transition_to m t = true :=
      (Zelda2d.z_change_state_result m t now).symm.trans h
    rw [Zelda2d.z_change_state_valid_eq m t now hv]
    exact ⟨rfl, rfl⟩

/-- Claim C7, witness: the successful transition MENU to PLAYING of each
game's fresh manager ends with current PLAYING and previous MENU. -/
theorem C7_witness :
    ((FlappyBirds.change_state (FlappyBirds.init FlappyBirds.GameState.MENU)
        FlappyBirds.GameState.PLAYING).1.current_state = FlappyBirds.GameState.PLAYING ∧
     (FlappyBirds.change_state (FlappyBirds.init FlappyBirds.GameState.MENU)
        FlappyBirds.GameState.PLAYING).1.previous_state =
       some FlappyBirds.GameState.MENU) ∧
    ((TextAdventure.change_state (TextAdventure.init TextAdventure.GameState.MENU 0)
        TextAdventure.GameState.PLAYING 1).1.current_state =
       TextAdventure.GameState.PLAYING ∧
     (TextAdventure.change_state (TextAdventure.init TextAdventure.GameState.MENU 0)
        TextAdventure.GameState.PLAYING 1).1.previous_state =
       some TextAdventure.GameState.MENU) ∧
    ((Zelda2d.change_state (Zelda2d.init Zelda2d.GameState.MENU 0)
        Zelda2d.GameState.PLAYING 1).1.current_state = Zelda2d.GameState.PLAYING ∧
     (Zelda2d.change_state (Zelda2d.init Zelda2d.GameState.MENU 0)
        Zelda2d.GameState.PLAYING 1).1.previous_state = some Zelda2d.GameState.MENU) :=
  ⟨C7_post_state.1 _ FlappyBirds.GameState.PLAYING (by decide),
   C7_post_state.2.1 _ TextAdventure.GameState.PLAYING 1 (by decide),
   C7_post_state.2.2 _ Zelda2d.GameState.PLAYING 1 (by decide)⟩

/-- Claim C8, counterexample.  The claim describes the history cap of every
game as approximately 100 entries, trimmed to approximately 50 when exceeded.
The flappy-birds manager instead caps at 10 and drops a single oldest entry
per overflow: after the ten successful transitions of `fbRun` (eleven entries
ever appended, counting the initial one) the history already lost its oldest
entry, holding exactly the last 10 states, nowhere near the claimed cap. -/
theorem C8_counterexample :
    fbRun.2 = List.replicate 10 (CallResult.ret true) ∧
    fbRun.1.state_history.length = 10 ∧
    fbRun.1.state_history =
      [FlappyBirds.GameState.PLAYING, FlappyBirds.GameState.MENU,
       FlappyBirds.GameState.PLAYING, FlappyBirds.GameState.MENU,
       FlappyBirds.GameState.PLAYING, FlappyBirds.GameState.MENU,
       FlappyBirds.GameState.PLAYING, FlappyBirds.GameState.MENU,
       FlappyBirds.GameState.PLAYING, FlappyBirds.GameState.MENU] := by
  decide

/-- Claim C8 (amended): each game's history is bounded by its own configured
cap after any sequence of `change_state` calls from construction — 10 entries
for flappy_birds (overflow drops the single oldest entry), 100 entries for
the text adventure and zelda_2d (overflow cuts to the most recent 50) — and
whenever entries are discarded the history stays a suffix of the old history
plus the new record, so the oldest entries are dropped first. -/
theorem C8_amended :
    (∀ (s : FlappyBirds.GameState) (l : List FlappyBirds.GameState),
        (FlappyBirds.changeSeq (FlappyBirds.init s) l).1.state_history.length ≤ 10) ∧
    (∀ (m : FlappyBirds.StateManager) (t : FlappyBirds.GameState),
        (FlappyBirds.change_state m t).1.state_history = m.state_history ∨
        (FlappyBirds.change_state m t).1.state_history <:+ m.state_history ++ [t]) ∧
    (∀ (s : TextAdventure.GameState) (now : Nat)
        (l : List (TextAdventure.GameState × Nat)),
        (TextAdventure.changeSeq (TextAdventure.init s now) l).1.state_history.length ≤
          100) ∧
    (∀ (m : TextAdventure.StateManager) (t : TextAdventure.GameState) (now : Nat),
        (TextAdventure.change_state m t now).1.state_history = m.state_history ∨
        ∃ r, (TextAdventure.change_state m t now).1.state_history <:+
          m.state_history ++ [r]) ∧
    (∀ (s : Zelda2d.GameState) (now : Nat) (l : List (Zelda2d.GameState × Nat)),
        (Zelda2d.changeSeq (Zelda2d.init s now) l).1.state_history.length ≤ 100) ∧
    (∀ (m : Zelda2d.StateManager) (t : Zelda2d.GameState) (now : Nat),
        (Zelda2d.change_state m t now).1.state_history = m.state_history ∨
        ∃ r, (Zelda2d.change_state m t now).1.state_history <:+
          m.state_history ++ [r]) := by
  refine ⟨?_, FlappyBirds.fb_change_state_history_step, ?_,
    TextAdventure.ta_change_state_history_step, ?_, Zelda2d.z_change_state_history_step⟩
  · intro s l
    refine FlappyBirds.fb_changeSeq_history_length l (FlappyBirds.init s) ?_
    simp [FlappyBirds.init]
  · intro s now l
    refine TextAdventure.ta_changeSeq_history_length l (TextAdventure.init s now) ?_
    simp [TextAdventure.init, TextAdventure.record_state_change]
  · intro s now l
    refine Zelda2d.z_changeSeq_history_length l (Zelda2d.init s now) ?_
    simp [Zelda2d.init, Zelda2d.record_state_change]

/-- Claim C9: evaluation of the text adventure at the failing input.  A fresh
manager at MENU (clock 0) performs `change_state(PLAYING)` (clock 1): the
call succeeds and appends exactly one record with the pre-call state MENU as
from-state, PLAYING as to-state and timestamp 1 — but its validity flag is
false, not true as the claim states, because `_record_state_change` evaluates
`can_transition_to(PLAYING)` after `current_state` has already been set to
PLAYING, so it tests PLAYING against the outgoing set of PLAYING itself. -/
theorem C9_code_eval :
    taFirstChange.2.2 = true ∧
    taFirstChange.1.state_history =
      [{ timestamp := 0, from_state := none,
         to_state := TextAdventure.GameState.MENU, transition_valid := true },
       { timestamp := 1, from_state := some TextAdventure.GameState.MENU,
         to_state := TextAdventure.GameState.PLAYING, transition_valid := false }] := by
  decide

/-- Claim C10: no state of any of the three transition tables is a member of
its own outgoing set, and consequently, on any manager whose table is the
constructed one, `change_state` targeting the current state itself returns
false, runs no callbacks and leaves the machine exactly unchanged. -/
theorem C10_no_self_loops :
    (∀ s : FlappyBirds.GameState, s ∉ FlappyBirds.defaultTransitions s) ∧
    (∀ s : TextAdventure.GameState, s ∉ TextAdventure.defaultTransitions s) ∧
    (∀ s : Zelda2d.GameState, s ∉ Zelda2d.defaultTransitions s) ∧
    (∀ m : FlappyBirds.StateManager,
        m.valid_transitions = FlappyBirds.defaultTransitions →
        FlappyBirds.change_state m m.current_state = (m, [], CallResult.ret false)) ∧
    (∀ (m : TextAdventure.StateManager) (now : Nat),
        m.valid_transitions = TextAdventure.defaultTransitions →
        TextAdventure.change_state m m.current_state now = (m, [], false)) ∧
    (∀ (m : Zelda2d.StateManager) (now : Nat),
        m.valid_transitions = Zelda2d.defaultTransitions →
        Zelda2d.change_state m m.current_state now = (m, [], false)) := by
  refine ⟨fun s => by cases s <;> decide, fun s => by cases s <;> decide,
    fun s => by cases s <;> decide, ?_, ?_, ?_⟩
  · intro m h
    have hs : m.current_state ∉ FlappyBirds.defaultTransitions m.current_state := by
      cases m.current_state <;> decide
    exact FlappyBirds.fb_change_state_invalid m m.current_state
      (by simp [FlappyBirds.is_valid_transition, h, hs])
  · intro m now h
    have hs : m.current_state ∉ TextAdventure.defaultTransitions m.current_state := by
      cases m.current_state <;> decide
    exact TextAdventure.ta_change_state_invalid m m.current_state now
      (by simp [TextAdventure.can_transition_to, h, hs])
  · intro m now h
    have hs : m.current_state ∉ Zelda2d.defaultTransitions m.current_state := by
      cases m.current_state <;> decide
    exact Zelda2d.z_change_state_invalid m m.current_state now
      (by simp [Zelda2d.can_transition_to, h, hs])

/-- Claim C10, witness: a fresh manager of each game rejects the
self-transition of its initial MENU state and is left unchanged. -/
theorem C10_witness :
    FlappyBirds.change_state (FlappyBirds.init FlappyBirds.GameState.MENU)
      FlappyBirds.GameState.MENU =
      (FlappyBirds.init FlappyBirds.GameState.MENU, [], CallResult.ret false) ∧
    TextAdventure.change_state (TextAdventure.init TextAdventure.GameState.MENU 0)
      TextAdventure.GameState.MENU 1 =
      (TextAdventure.init TextAdventure.GameState.MENU 0, [], false) ∧
    Zelda2d.change_state (Zelda2d.init Zelda2d.GameState.MENU 0)
      Zelda2d.GameState.MENU 1 =
      (Zelda2d.init Zelda2d.GameState.MENU 0, [], false) :=
  ⟨C10_no_self_loops.2.2.2.1 (FlappyBirds.init FlappyBirds.GameState.MENU) rfl,
   C10_no_self_loops.2.2.2.2.1 (TextAdventure.init TextAdventure.GameState.MENU 0) 1 rfl,
   C10_no_self_loops.2.2.2.2.2 (Zelda2d.init Zelda2d.GameState.MENU 0) 1 rfl⟩
